import Mathlib

/-!
Shallow embedding of the food-safety classification cascade of
src/ai_classifier.py (class FoodSafetyImageClassifier) and proofs about it.

Modelling conventions:
* Python dicts produced by the classifier are modelled as a record whose
  fields are Option-valued: a field holding none models a key that is
  absent from the dict.
* Python floats only ever carry decimal literals or numbers copied from a
  model reply, so confidences are modelled as exact rationals.
* The raw reply of an external model is abstracted to the outcome of the
  regex + json.loads step of _parse_ai_response: either no JSON object
  could be extracted and parsed (or its status value was not a string, in
  which case the same except-branch fires), or it parsed to a JSON object
  whose recognised fields are captured.  Unrecognised extra keys of the
  reply are not modelled; no claim depends on them.
* The behaviour of the external models and of the network is a parameter:
  for each model identifier, an attempt either raises (none) or yields a
  reply (some).
-/

/-- Characters of a string, lower-cased; models the Python expression s.lower()
for the ASCII range used by the classifier's keyword tables. -/
def strLower (s : String) : String := String.mk (s.data.map Char.toLower)

/-- Characters of a string, upper-cased; models the Python expression s.upper(). -/
def strUpper (s : String) : String := String.mk (s.data.map Char.toUpper)

/-- True when the first list occurs at the head of the second. -/
def matchAt : List Char → List Char → Bool
  | [], _ => true
  | _ :: _, [] => false
  | p :: ps, c :: cs => p == c && matchAt ps cs

/-- True when the first list occurs as a contiguous sublist of the second. -/
def hasSub (pat : List Char) : List Char → Bool
  | [] => matchAt pat []
  | c :: cs => matchAt pat (c :: cs) || hasSub pat cs

/-- Models the Python expression pat in s (substring containment). -/
def strContains (s pat : String) : Bool := hasSub pat.data s.data

/-- Characters strictly before the first '/' of the list. -/
def beforeSlash : List Char → List Char
  | [] => []
  | c :: cs => if c == '/' then [] else c :: beforeSlash cs

/-- Models the Python expression model.split('/')[0], the provider part of a
model identifier such as "google/gemini-2.0-flash-exp:free". -/
def modelOwner (model : String) : String := String.mk (beforeSlash model.data)

/-- Models the Python expression sep.join(items). -/
def joinSep (sep : String) : List String → String
  | [] => ""
  | [x] => x
  | x :: y :: ys => x ++ sep ++ joinSep sep (y :: ys)

/-- Calendar date, as produced by datetime.date. -/
structure Date where
  year : Nat
  month : Nat
  day : Nat
deriving DecidableEq, Repr

/-- Gregorian leap-year rule used by Python's datetime module. -/
def isLeapYear (y : Nat) : Bool := y % 4 == 0 && (y % 100 != 0 || y % 400 == 0)

/-- Length of month m of year y in the proleptic Gregorian calendar. -/
def daysInMonth (y m : Nat) : Nat :=
  if m == 2 then (if isLeapYear y then 29 else 28)
  else if m == 4 || m == 6 || m == 9 || m == 11 then 30
  else 31

/-- Days in the months of year y strictly before month m. -/
def monthDaysBefore (y m : Nat) : Nat :=
  (List.range (m - 1)).foldl (fun a i => a + daysInMonth y (i + 1)) 0

/-- Proleptic Gregorian ordinal (0001-01-01 is day 1); models Python's
date.toordinal, which underlies subtraction of dates. -/
def Date.toOrdinal (dt : Date) : Nat :=
  365 * (dt.year - 1)
    + ((dt.year - 1) / 4 - (dt.year - 1) / 100 + (dt.year - 1) / 400)
    + monthDaysBefore dt.year dt.month + dt.day

/-- Models (expiry - today).days for two datetime.date values. -/
def daysBetween (expiry today : Date) : Int :=
  (expiry.toOrdinal : Int) - (today.toOrdinal : Int)

/-- Splits a character list at every '-' (keeping empty pieces), as a step in
modelling strptime with format '%Y-%m-%d'. -/
def splitDash : List Char → List (List Char)
  | [] => [[]]
  | c :: cs =>
    if c == '-' then [] :: splitDash cs
    else
      match splitDash cs with
      | [] => [[c]]
      | r :: rs => (c :: r) :: rs

/-- True when the list is nonempty and all its characters are decimal digits. -/
def allDigits (cs : List Char) : Bool := !cs.isEmpty && cs.all (fun c => c.isDigit)

/-- Numeric value of a list of decimal digits. -/
def digitsVal (cs : List Char) : Nat := cs.foldl (fun a c => a * 10 + (c.toNat - 48)) 0

/-- Models datetime.strptime(s, '%Y-%m-%d').date() as used at lines 49 and 387
of src/ai_classifier.py: three dash-separated decimal fields, where CPython
compiles the %Y directive to exactly four digits while %m and %d accept 1 or
2 digits, with year at least 1, month in 1..12 and day within the month's
length; any other input raises ValueError, modelled here as none. -/
def parseDate (s : String) : Option Date :=
  match splitDash s.data with
  | [ys, ms, ds] =>
    if allDigits ys ∧ ys.length = 4 ∧ allDigits ms ∧ ms.length ≤ 2
        ∧ allDigits ds ∧ ds.length ≤ 2 then
      let y := digitsVal ys
      let m := digitsVal ms
      let d := digitsVal ds
      if 1 ≤ y ∧ 1 ≤ m ∧ m ≤ 12 ∧ 1 ≤ d ∧ d ≤ daysInMonth y m then
        some ⟨y, m, d⟩
      else none
    else none
  | _ => none

/-- Result dict of the classifier.  Each field models one key of the Python
dict; a field holding none models a key that is absent. -/
structure ResultDict where
  status : Option String
  confidence : Option Rat
  reason : Option String
  risk_factors : Option (List String)
  recommendations : Option (List String)
  model : Option String
  ai_type : Option String
  image_analyzed : Option Bool
  analysis_type : Option String
deriving DecidableEq, Repr

/-- Recognised fields of the JSON object embedded in a model reply, each
optional since the model may omit any of them. -/
structure JsonObj where
  status : Option String
  confidence : Option Rat
  reason : Option String
  risk_factors : Option (List String)
  recommendations : Option (List String)
deriving DecidableEq, Repr

/-- Outcome of the regex + json.loads step of _parse_ai_response on a raw
reply: json obj when a brace-delimited block parsed to an object (with a
string status field, if any), malformed when extraction or parsing raised. -/
inductive AiResponse where
  | malformed
  | json (obj : JsonObj)
deriving DecidableEq, Repr

/-- Embeds the status_map lookup of _parse_ai_response
(src/ai_classifier.py lines 244-251): status_map.get(key, 'safe_to_donate'). -/
def status_map (s : String) : String :=
  if s == "SAFE_TO_DONATE" then "safe_to_donate"
  else if s == "CONSUME_SOON" then "consume_soon"
  else if s == "REJECT" then "reject"
  else "safe_to_donate"

/-- Embeds FoodSafetyImageClassifier._parse_ai_response
(src/ai_classifier.py lines 236-280).  On a parsed JSON object the status is
normalised only when present, metadata is stamped and the four listed fields
are backfilled when missing; when no JSON block parses, the fixed fallback
dict of lines 272-280 is returned. -/
def parse_ai_response (ai_response : AiResponse) (model : String) (is_vision : Bool) :
    ResultDict :=
  match ai_response with
  | AiResponse.json result =>
    { status := result.status.map (fun s => status_map (strUpper s))
      confidence := some (result.confidence.getD (mkRat 8 10))
      reason := some (result.reason.getD ("Analyzed by " ++ modelOwner model))
      risk_factors := some (result.risk_factors.getD [])
      recommendations := some (result.recommendations.getD [])
      model := some (modelOwner model)
      ai_type := none
      image_analyzed := none
      analysis_type := some (if is_vision then "vision" else "text") }
  | AiResponse.malformed =>
    { status := some "safe_to_donate"
      confidence := some (mkRat 7 10)
      reason := some ("AI analysis completed ("
        ++ (if is_vision then "vision" else "text") ++ " mode)")
      risk_factors := some ["ai_analyzed"]
      recommendations := some ["Check manually if unsure"]
      model := some (modelOwner model)
      ai_type := none
      image_analyzed := none
      analysis_type := some (if is_vision then "vision" else "text") }

/-- Spoilage keyword table of _smart_local_ai (src/ai_classifier.py line 301). -/
def spoilage_words : List String := ["mold", "rotten", "spoiled", "sour", "bad", "expired"]

/-- Embeds FoodSafetyImageClassifier._smart_local_ai
(src/ai_classifier.py lines 282-381), the deterministic local tier. -/
def smart_local_ai (food_name : String) (days_left : Int) (description : String)
    (had_image : Bool) : ResultDict :=
  let text := strLower (food_name ++ " " ++ description)
  let image_note := if had_image then " (image provided but analysis failed)" else ""
  if days_left < 0 then
    { status := some "reject", confidence := some (mkRat 99 100)
      reason := some ("❌ EXPIRED: " ++ Nat.repr days_left.natAbs
        ++ " days past expiry" ++ image_note)
      risk_factors := some ["expired"], recommendations := some ["Do not consume"]
      model := some "local_ai", ai_type := none, image_analyzed := none
      analysis_type := none }
  else
    let issues := spoilage_words.filter (fun w => strContains text w)
    if !issues.isEmpty then
      { status := some "reject", confidence := some (mkRat 95 100)
        reason := some ("❌ UNSAFE: " ++ joinSep ", " issues ++ " detected" ++ image_note)
        risk_factors := some issues, recommendations := some ["Do not donate"]
        model := some "local_ai", ai_type := none, image_analyzed := none
        analysis_type := none }
    else if strContains text "milk" || strContains text "meat"
        || strContains text "fish" then
      if 7 ≤ days_left then
        { status := some "safe_to_donate", confidence := some (mkRat 85 100)
          reason := some ("✅ SAFE: Perishable but fresh" ++ image_note)
          risk_factors := some ["perishable"], recommendations := some ["Keep refrigerated"]
          model := some "local_ai", ai_type := none, image_analyzed := none
          analysis_type := none }
      else if 3 ≤ days_left then
        { status := some "consume_soon", confidence := some (mkRat 90 100)
          reason := some ("⚠️ CONSUME SOON: Perishable, eat within "
            ++ toString days_left ++ " days" ++ image_note)
          risk_factors := some ["perishable", "time_sensitive"]
          recommendations := some ["Consume quickly", "Keep cold"]
          model := some "local_ai", ai_type := none, image_analyzed := none
          analysis_type := none }
      else
        { status := some "reject", confidence := some (mkRat 88 100)
          reason := some ("❌ REJECT: Perishable, only " ++ toString days_left
            ++ " days left" ++ image_note)
          risk_factors := some ["perishable", "too_close"]
          recommendations := some ["Do not donate"]
          model := some "local_ai", ai_type := none, image_analyzed := none
          analysis_type := none }
    else if strContains text "canned" || strContains text "packaged" then
      { status := some "safe_to_donate", confidence := some (mkRat 95 100)
        reason := some ("✅ EXCELLENT: Long shelf life" ++ image_note)
        risk_factors := some [], recommendations := some ["Good for donation"]
        model := some "local_ai", ai_type := none, image_analyzed := none
        analysis_type := none }
    else if 7 ≤ days_left then
      { status := some "safe_to_donate", confidence := some (mkRat 85 100)
        reason := some ("✅ GOOD: " ++ toString days_left
          ++ " days until expiry" ++ image_note)
        risk_factors := some [], recommendations := some ["Safe for donation"]
        model := some "local_ai", ai_type := none, image_analyzed := none
        analysis_type := none }
    else if 3 ≤ days_left then
      { status := some "consume_soon", confidence := some (mkRat 80 100)
        reason := some ("⚠️ CONSUME SOON: Should be eaten within "
          ++ toString days_left ++ " days" ++ image_note)
        risk_factors := some ["approaching_expiry"]
        recommendations := some ["Consume quickly"]
        model := some "local_ai", ai_type := none, image_analyzed := none
        analysis_type := none }
    else
      { status := some "reject", confidence := some (mkRat 90 100)
        reason := some ("❌ REJECT: Too close to expiry (" ++ toString days_left
          ++ " days)" ++ image_note)
        risk_factors := some ["too_close"], recommendations := some ["Do not donate"]
        model := some "local_ai", ai_type := none, image_analyzed := none
        analysis_type := none }

/-- Embeds FoodSafetyImageClassifier._simple_fallback
(src/ai_classifier.py lines 383-434): the date string is re-parsed inside a
try block; the except branch yields the last-resort dict of lines 427-434. -/
def simple_fallback (today : Date) (food_name expiry_date err : String) : ResultDict :=
  match parseDate expiry_date with
  | some expiry =>
    let days_left : Int := daysBetween expiry today
    if days_left < 0 then
      { status := some "reject", confidence := some (mkRat 99 100)
        reason := some ("Expired " ++ Nat.repr days_left.natAbs ++ " days ago")
        risk_factors := some ["expired"], recommendations := some ["Do not consume"]
        model := some "fallback", ai_type := none, image_analyzed := none
        analysis_type := none }
    else if 7 ≤ days_left then
      { status := some "safe_to_donate", confidence := some (mkRat 85 100)
        reason := some ("Good shelf life (" ++ toString days_left ++ " days)")
        risk_factors := some [], recommendations := some ["Safe for donation"]
        model := some "fallback", ai_type := none, image_analyzed := none
        analysis_type := none }
    else if 3 ≤ days_left then
      { status := some "consume_soon", confidence := some (mkRat 80 100)
        reason := some ("Should be eaten soon (" ++ toString days_left ++ " days)")
        risk_factors := some ["approaching_expiry"]
        recommendations := some ["Consume quickly"]
        model := some "fallback", ai_type := none, image_analyzed := none
        analysis_type := none }
    else
      { status := some "reject", confidence := some (mkRat 90 100)
        reason := some ("Too close to expiry (" ++ toString days_left ++ " days)")
        risk_factors := some ["too_close"], recommendations := some ["Do not donate"]
        model := some "fallback", ai_type := none, image_analyzed := none
        analysis_type := none }
  | none =>
    { status := some "safe_to_donate", confidence := some (mkRat 1 2)
      reason := some "Default safe classification"
      risk_factors := some ["system_error"], recommendations := some ["Check manually"]
      model := some "fallback", ai_type := none, image_analyzed := none
      analysis_type := none }

/-- Vision model priority list (src/ai_classifier.py lines 19-23). -/
def vision_models : List String :=
  ["nvidia/nemotron-nano-12b-v2-vl:free",
   "google/gemini-2.0-flash-exp:free",
   "meta-llama/llama-3.2-11b-vision-instruct:free"]

/-- Text model priority list (src/ai_classifier.py lines 26-30). -/
def text_models : List String :=
  ["meta-llama/llama-3.2-3b-instruct:free",
   "huggingfaceh4/zephyr-7b-beta:free",
   "microsoft/phi-3-mini-128k-instruct:free"]

/-- Process-wide configuration of the classifier: whether an API key is
configured (src/ai_classifier.py line 32, use_api). -/
structure Config where
  use_api : Bool
deriving DecidableEq, Repr

/-- One behaviour of the external world: for each tier and model identifier,
either the whole invocation raises (none: network failure, timeout, non-200
response or a malformed completion envelope) or it yields a reply (some),
abstracted as described for AiResponse. -/
structure Behavior where
  vision : String → Option AiResponse
  text : String → Option AiResponse

/-- Models Python truthiness of the image_base64 argument as tested at line 53
of src/ai_classifier.py: an empty string is falsy. -/
def imageTruthy : Option String → Bool
  | some s => !s.data.isEmpty
  | none => false

/-- Embeds one for-loop over a model priority list in predict
(src/ai_classifier.py lines 55-66 and 70-80): each model is invoked in order
inside a try block, a raising attempt continues with the next model, the
first reply is parsed and returned.  Yields the list of models actually
invoked together with the successful model and its parsed result, if any. -/
def tryModels (behav : String → Option AiResponse) (is_vision : Bool) :
    List String → List String × Option (String × ResultDict)
  | [] => ([], none)
  | m :: rest =>
    match behav m with
    | some r => ([m], some (m, parse_ai_response r m is_vision))
    | none =>
      let out := tryModels behav is_vision rest
      (m :: out.1, out.2)

/-- Verdict of one classification call together with the trace of external
model attempts of each tier. -/
structure PredictOutput where
  result : ResultDict
  vision_tried : List String
  text_tried : List String
deriving DecidableEq, Repr

/-- Embeds the guarded vision-tier loop of predict (src/ai_classifier.py
lines 53-66): it runs only when the image argument is truthy and the API is
configured. -/
def visionStep (cfg : Config) (B : Behavior) (image_base64 : Option String) :
    List String × Option (String × ResultDict) :=
  if imageTruthy image_base64 && cfg.use_api then
    tryModels B.vision true vision_models
  else ([], none)

/-- Embeds the guarded text-tier loop of predict (src/ai_classifier.py
lines 69-80): it runs only when the API is configured and days_left is
non-negative. -/
def textStep (cfg : Config) (B : Behavior) (days_left : Int) :
    List String × Option (String × ResultDict) :=
  if cfg.use_api && decide (0 ≤ days_left) then
    tryModels B.text false text_models
  else ([], none)

/-- Embeds the try-block body of FoodSafetyImageClassifier.predict
(src/ai_classifier.py lines 46-86).  Date parsing may raise (Except.error,
the ValueError of strptime); the vision tier, the text tier and finally the
local tier decide in that order. -/
def predict_try (cfg : Config) (B : Behavior) (today : Date)
    (food_name expiry_date description : String) (image_base64 : Option String) :
    Except String PredictOutput :=
  match parseDate expiry_date with
  | none => Except.error "ValueError"
  | some expiry =>
    let days_left : Int := daysBetween expiry today
    match visionStep cfg B image_base64 with
    | (vt, some (m, r)) =>
      Except.ok ⟨{ r with ai_type := some ("vision_ai_" ++ modelOwner m)
                          image_analyzed := some true }, vt, []⟩
    | (vt, none) =>
      match textStep cfg B days_left with
      | (tt, some (m, r)) =>
        Except.ok ⟨{ r with ai_type := some ("text_ai_" ++ modelOwner m)
                            image_analyzed := some false }, vt, tt⟩
      | (tt, none) =>
        let r := smart_local_ai food_name days_left description image_base64.isSome
        Except.ok ⟨{ r with ai_type := some "local_ai"
                            image_analyzed := some image_base64.isSome }, vt, tt⟩

/-- Embeds FoodSafetyImageClassifier.predict (src/ai_classifier.py
lines 41-89): the try block, with the except branch routing every raised
error to _simple_fallback. -/
def predictFull (cfg : Config) (B : Behavior) (today : Date)
    (food_name expiry_date description : String) (image_base64 : Option String) :
    PredictOutput :=
  match predict_try cfg B today food_name expiry_date description image_base64 with
  | Except.ok out => out
  | Except.error e => ⟨simple_fallback today food_name expiry_date e, [], []⟩

/-- The verdict dict returned to the caller of predict. -/
def predict (cfg : Config) (B : Behavior) (today : Date)
    (food_name expiry_date description : String) (image_base64 : Option String) :
    ResultDict :=
  (predictFull cfg B today food_name expiry_date description image_base64).result

/-- Caller-facing view of predict as a fallible operation: Except.error would
model an exception crossing the classify boundary, the except branch of
lines 88-89 converts every raised error into the fallback verdict. -/
def classifyE (cfg : Config) (B : Behavior) (today : Date)
    (food_name expiry_date description : String) (image_base64 : Option String) :
    Except String ResultDict :=
  match predict_try cfg B today food_name expiry_date description image_base64 with
  | Except.ok out => Except.ok out.result
  | Except.error e => Except.ok (simple_fallback today food_name expiry_date e)

/-- One HTTP response of the external service: its status code, its body text
(response.text) and, when the body is a well-formed completion envelope, the
extracted reply text result["choices"][0]["message"]["content"]. -/
structure HttpResponse where
  status_code : Nat
  body : String
  content : Option String
deriving DecidableEq, Repr

/-- Timeout in seconds passed to requests.post by _analyze_with_image
(src/ai_classifier.py line 133). -/
def vision_timeout : Nat := 20

/-- Timeout in seconds passed to requests.post by _analyze_text_only
(src/ai_classifier.py line 171). -/
def text_timeout : Nat := 15

/-- Embeds the response handling of _analyze_with_image
(src/ai_classifier.py lines 135-140): the reply text is extracted only when
the status code equals 200 (a missing completion envelope raises, modelled as
an error); any other status raises an exception carrying the status code and
the body truncated to 100 characters. -/
def vision_http_result (response : HttpResponse) : Except String String :=
  if response.status_code == 200 then
    match response.content with
    | some c => Except.ok c
    | none => Except.error "KeyError: choices"
  else
    Except.error ("API Error " ++ Nat.repr response.status_code ++ ": "
      ++ String.mk (response.body.data.take 100))

/-- Embeds the response handling of _analyze_text_only
(src/ai_classifier.py lines 173-178): as for the vision tier, except that the
exception for a non-200 status carries only the status code, not the body. -/
def text_http_result (response : HttpResponse) : Except String String :=
  if response.status_code == 200 then
    match response.content with
    | some c => Except.ok c
    | none => Except.error "KeyError: choices"
  else
    Except.error ("API Error " ++ Nat.repr response.status_code)

/-- A canonical verdict status: one of the three values of the spec. -/
def canonicalStatus (s : String) : Prop :=
  s = "safe_to_donate" ∨ s = "consume_soon" ∨ s = "reject"

instance (s : String) : Decidable (canonicalStatus s) := by
  unfold canonicalStatus
  infer_instance

/-- All fields of the spec's Verdict shape are present in a result dict:
status, confidence, reason, risk_factors, recommendations, the source tier
and model identification (ai_type and model) and the image flag. -/
def fullyPopulated (v : ResultDict) : Prop :=
  v.status.isSome ∧ v.confidence.isSome ∧ v.reason.isSome ∧ v.risk_factors.isSome
    ∧ v.recommendations.isSome ∧ v.model.isSome ∧ v.ai_type.isSome
    ∧ v.image_analyzed.isSome

/-- Configuration with an API key present. -/
def cfgApi : Config := ⟨true⟩

/-- Configuration without an API key (use_api false). -/
def cfgNoApi : Config := ⟨false⟩

/-- External behaviour in which every model attempt of both tiers raises. -/
def noModels : Behavior := ⟨fun _ => none, fun _ => none⟩

/-- External behaviour whose text models reply with a parsed JSON object
carrying a confidence of 2, outside the unit interval. -/
def overConfident : Behavior :=
  ⟨fun _ => none, fun _ => some (AiResponse.json ⟨some "REJECT", some 2, none, none, none⟩)⟩

/-- External behaviour whose text models reply with an empty JSON object. -/
def emptyJsonModels : Behavior :=
  ⟨fun _ => none, fun _ => some (AiResponse.json ⟨none, none, none, none, none⟩)⟩

/-- A JSON reply carrying only a status field. -/
def jStatusOnly : JsonObj := ⟨some "reject", none, none, none, none⟩

/-- A fixed reference day used by concrete witnesses. -/
def day0 : Date := ⟨2025, 1, 1⟩

instance (v : ResultDict) : Decidable (fullyPopulated v) := by
  unfold fullyPopulated
  infer_instance

/-- The status field of a verdict, whenever present, is canonical. -/
def statusCanonicalIfPresent (v : ResultDict) : Prop :=
  ∀ s, v.status = some s → canonicalStatus s

/-- The confidence field of a verdict is present and lies in the unit
interval. -/
def confidenceInUnit (v : ResultDict) : Prop :=
  ∃ c, v.confidence = some c ∧ 0 ≤ c ∧ c ≤ 1

/-! Helper lemmas about the tiers of the cascade. -/

/-- A loop over models in which every attempt raises tries every model and
produces no result. -/
lemma tryModels_none (behav : String → Option AiResponse) (iv : Bool)
    (models : List String) (h : ∀ m ∈ models, behav m = none) :
    tryModels behav iv models = (models, none) := by
  induction models with
  | nil => rfl
  | cons m rest ih =>
    have hm : behav m = none := h m (List.mem_cons_self m rest)
    have hr := ih (fun x hx => h x (List.mem_cons_of_mem m hx))
    simp [tryModels, hm, hr]

/-- A successful loop over models returns the parsed reply of the model that
replied. -/
lemma tryModels_some (behav : String → Option AiResponse) (iv : Bool)
    (models : List String) (m : String) (r : ResultDict)
    (h : (tryModels behav iv models).2 = some (m, r)) :
    ∃ reply, behav m = some reply ∧ r = parse_ai_response reply m iv := by
  induction models with
  | nil => simp [tryModels] at h
  | cons m0 rest ih =>
    cases hb : behav m0 with
    | some rep =>
      simp only [tryModels, hb] at h
      injection h with h2
      rw [Prod.mk.injEq] at h2
      obtain ⟨hm, hr⟩ := h2
      subst hm
      exact ⟨rep, hb, hr.symm⟩
    | none =>
      simp only [tryModels, hb] at h
      exact ih h

/-- The loop over a nonempty model list always attempts its first model. -/
lemma tryModels_tried_ne_nil (behav : String → Option AiResponse) (iv : Bool)
    (m : String) (rest : List String) :
    (tryModels behav iv (m :: rest)).1 ≠ [] := by
  cases hb : behav m <;> simp [tryModels, hb]

/-- The status normaliser only produces the three canonical statuses. -/
lemma status_map_canonical (s : String) : canonicalStatus (status_map s) := by
  unfold canonicalStatus status_map
  split_ifs <;> decide

/-- Shape facts about every local-tier verdict: the status is present and
canonical, the confidence is present and in the unit interval, reason, risk
factors and recommendations are present, and the model tag is local_ai. -/
lemma smart_local_shape (f : String) (dl : Int) (d : String) (b : Bool) :
    (∃ s, (smart_local_ai f dl d b).status = some s ∧ canonicalStatus s) ∧
    (∃ c, (smart_local_ai f dl d b).confidence = some c ∧ 0 ≤ c ∧ c ≤ 1) ∧
    (smart_local_ai f dl d b).reason.isSome = true ∧
    (smart_local_ai f dl d b).risk_factors.isSome = true ∧
    (smart_local_ai f dl d b).recommendations.isSome = true ∧
    (smart_local_ai f dl d b).model = some "local_ai" := by
  simp only [smart_local_ai]
  split_ifs <;>
    exact ⟨⟨_, rfl, by decide⟩, ⟨_, rfl, by decide, by decide⟩, rfl, rfl, rfl, rfl⟩

/-- The had_image flag of the local tier influences only the reason text:
status, confidence, risk factors, recommendations and model are those of the
image-free run on the same inputs. -/
lemma smart_local_image_fields (f : String) (dl : Int) (d : String) (b : Bool) :
    (smart_local_ai f dl d b).status = (smart_local_ai f dl d false).status ∧
    (smart_local_ai f dl d b).confidence = (smart_local_ai f dl d false).confidence ∧
    (smart_local_ai f dl d b).risk_factors = (smart_local_ai f dl d false).risk_factors ∧
    (smart_local_ai f dl d b).recommendations
      = (smart_local_ai f dl d false).recommendations ∧
    (smart_local_ai f dl d b).model = (smart_local_ai f dl d false).model := by
  cases b
  · exact ⟨rfl, rfl, rfl, rfl, rfl⟩
  · simp only [smart_local_ai]
    split_ifs <;> exact ⟨rfl, rfl, rfl, rfl, rfl⟩

/-- Shape facts about every simple-fallback verdict: status present and
canonical, confidence present and in the unit interval. -/
lemma simple_fallback_shape (today : Date) (f e err : String) :
    (∃ s, (simple_fallback today f e err).status = some s ∧ canonicalStatus s) ∧
    (∃ c, (simple_fallback today f e err).confidence = some c ∧ 0 ≤ c ∧ c ≤ 1) := by
  cases hp : parseDate e with
  | none =>
    simp only [simple_fallback, hp]
    exact ⟨⟨_, rfl, by decide⟩, ⟨_, rfl, by decide, by decide⟩⟩
  | some exp =>
    simp only [simple_fallback, hp]
    split_ifs <;>
      exact ⟨⟨_, rfl, by decide⟩, ⟨_, rfl, by decide, by decide⟩⟩

/-- Shape facts about every normalised model reply: a present status is
canonical; reason, risk factors, recommendations and model are present. -/
lemma parse_shape (reply : AiResponse) (mdl : String) (iv : Bool) :
    (∀ s, (parse_ai_response reply mdl iv).status = some s → canonicalStatus s) ∧
    (parse_ai_response reply mdl iv).reason.isSome = true ∧
    (parse_ai_response reply mdl iv).risk_factors.isSome = true ∧
    (parse_ai_response reply mdl iv).recommendations.isSome = true ∧
    (parse_ai_response reply mdl iv).model.isSome = true := by
  cases reply with
  | malformed =>
    refine ⟨fun s hs => ?_, rfl, rfl, rfl, rfl⟩
    injection hs with h
    rw [← h]
    decide
  | json j =>
    refine ⟨fun s hs => ?_, rfl, rfl, rfl, rfl⟩
    simp only [parse_ai_response, Option.map_eq_some'] at hs
    obtain ⟨s0, -, hmap⟩ := hs
    rw [← hmap]
    exact status_map_canonical _

/-- A successful vision step comes from a replying vision model. -/
lemma visionStep_some (cfg : Config) (B : Behavior) (i : Option String)
    (vt : List String) (m : String) (r : ResultDict)
    (h : visionStep cfg B i = (vt, some (m, r))) :
    ∃ reply, B.vision m = some reply ∧ r = parse_ai_response reply m true := by
  unfold visionStep at h
  split at h
  · exact tryModels_some _ _ _ _ _ (by rw [h])
  · simp at h

/-- A successful text step comes from a replying text model. -/
lemma textStep_some (cfg : Config) (B : Behavior) (dl : Int)
    (tt : List String) (m : String) (r : ResultDict)
    (h : textStep cfg B dl = (tt, some (m, r))) :
    ∃ reply, B.text m = some reply ∧ r = parse_ai_response reply m false := by
  unfold textStep at h
  split at h
  · exact tryModels_some _ _ _ _ _ (by rw [h])
  · simp at h

/-- When every vision model raises, the vision step yields no result. -/
lemma visionStep_fail (cfg : Config) (B : Behavior) (i : Option String)
    (h : ∀ m ∈ vision_models, B.vision m = none) :
    (visionStep cfg B i).2 = none := by
  unfold visionStep
  split
  · rw [tryModels_none _ _ _ h]
  · rfl

/-- When every text model raises, the text step yields no result. -/
lemma textStep_fail (cfg : Config) (B : Behavior) (dl : Int)
    (h : ∀ m ∈ text_models, B.text m = none) :
    (textStep cfg B dl).2 = none := by
  unfold textStep
  split
  · rw [tryModels_none _ _ _ h]
  · rfl

/-- With a negative days_left the text step is skipped outright. -/
lemma textStep_skipped (cfg : Config) (B : Behavior) (dl : Int) (hneg : dl < 0) :
    textStep cfg B dl = ([], none) := by
  unfold textStep
  have : decide (0 ≤ dl) = false := by
    simp [decide_eq_false_iff_not]
    omega
  simp [this]

/-- With no API key both steps are skipped outright. -/
lemma steps_skipped_no_api (cfg : Config) (B : Behavior) (i : Option String)
    (dl : Int) (hapi : cfg.use_api = false) :
    visionStep cfg B i = ([], none) ∧ textStep cfg B dl = ([], none) := by
  unfold visionStep textStep
  simp [hapi]

/-- Unfolding of predict on an unparseable expiry date. -/
lemma predictFull_bad_date (cfg : Config) (B : Behavior) (today : Date)
    (f e d : String) (i : Option String) (hp : parseDate e = none) :
    predictFull cfg B today f e d i = ⟨simple_fallback today f e "ValueError", [], []⟩ := by
  simp [predictFull, predict_try, hp]

/-- Unfolding of predict when the vision tier succeeds. -/
lemma predictFull_vision (cfg : Config) (B : Behavior) (today exp : Date)
    (f e d : String) (i : Option String) (vt : List String) (m : String)
    (r : ResultDict) (hp : parseDate e = some exp)
    (hv : visionStep cfg B i = (vt, some (m, r))) :
    predictFull cfg B today f e d i =
      ⟨{ r with ai_type := some ("vision_ai_" ++ modelOwner m),
                image_analyzed := some true }, vt, []⟩ := by
  simp [predictFull, predict_try, hp, hv]

/-- Unfolding of predict when the vision tier fails and the text tier
succeeds. -/
lemma predictFull_text (cfg : Config) (B : Behavior) (today exp : Date)
    (f e d : String) (i : Option String) (vt tt : List String) (m : String)
    (r : ResultDict) (hp : parseDate e = some exp)
    (hv : visionStep cfg B i = (vt, none))
    (ht : textStep cfg B (daysBetween exp today) = (tt, some (m, r))) :
    predictFull cfg B today f e d i =
      ⟨{ r with ai_type := some ("text_ai_" ++ modelOwner m),
                image_analyzed := some false }, vt, tt⟩ := by
  simp [predictFull, predict_try, hp, hv, ht]

/-- Unfolding of predict when both external tiers fail and the local tier
decides. -/
lemma predictFull_local (cfg : Config) (B : Behavior) (today exp : Date)
    (f e d : String) (i : Option String) (vt tt : List String)
    (hp : parseDate e = some exp)
    (hv : visionStep cfg B i = (vt, none))
    (ht : textStep cfg B (daysBetween exp today) = (tt, none)) :
    predictFull cfg B today f e d i =
      ⟨{ smart_local_ai f (daysBetween exp today) d i.isSome with
           ai_type := some "local_ai",
           image_analyzed := some i.isSome }, vt, tt⟩ := by
  simp [predictFull, predict_try, hp, hv, ht]

/-! Claim theorems. -/

/-- C1: for every input (food name, expiry string, description, optional
image) and every behaviour of the external models, the classify operation
terminates normally with a verdict value and never propagates an exception:
viewed as a fallible operation it always returns Except.ok of the verdict
computed by predict. -/
theorem C1_classify_total (cfg : Config) (B : Behavior) (today : Date)
    (food_name expiry_date description : String) (image_base64 : Option String) :
    classifyE cfg B today food_name expiry_date description image_base64 =
      Except.ok (predict cfg B today food_name expiry_date description image_base64) := by
  unfold classifyE predict predictFull
  cases predict_try cfg B today food_name expiry_date description image_base64 <;> rfl

/-- C8: with an expiry string that is not a valid date, classify returns the
last-resort verdict: status safe_to_donate, confidence 0.5 and risk_factors
[system_error], without raising. -/
theorem C8_last_resort (cfg : Config) (B : Behavior) (today : Date)
    (food_name expiry_date description : String) (image_base64 : Option String)
    (hp : parseDate expiry_date = none) :
    (predict cfg B today food_name expiry_date description image_base64).status
        = some "safe_to_donate" ∧
    (predict cfg B today food_name expiry_date description image_base64).confidence
        = some (mkRat 1 2) ∧
    (predict cfg B today food_name expiry_date description image_base64).risk_factors
        = some ["system_error"] := by
  unfold predict
  rw [predictFull_bad_date cfg B today food_name expiry_date description image_base64 hp]
  simp only [simple_fallback, hp]
  exact ⟨by trivial, by trivial, by trivial⟩

/-- Witness for C8 at the concrete input of the spec's Scenario D. -/
theorem C8_last_resort_w :
    (predict cfgApi noModels day0 "Rice" "not-a-date" "" none).status
        = some "safe_to_donate" ∧
    (predict cfgApi noModels day0 "Rice" "not-a-date" "" none).confidence
        = some (mkRat 1 2) ∧
    (predict cfgApi noModels day0 "Rice" "not-a-date" "" none).risk_factors
        = some ["system_error"] :=
  C8_last_resort cfgApi noModels day0 "Rice" "not-a-date" "" none (by decide)

/-- With a truthy image and a configured API key the vision loop attempts at
least its first model. -/
lemma visionStep_attempted (cfg : Config) (B : Behavior) (i : Option String)
    (hi : imageTruthy i = true) (ha : cfg.use_api = true) :
    (visionStep cfg B i).1 ≠ [] := by
  have hcond : (imageTruthy i && cfg.use_api) = true := by rw [hi, ha]; rfl
  unfold visionStep
  rw [if_pos hcond]
  unfold vision_models
  exact tryModels_tried_ne_nil _ _ _ _

/-- C5: with a parseable expiry date strictly in the past, the text tier is
never attempted (no text model is invoked), while the vision tier is still
attempted when an image is present and the API is configured. -/
theorem C5_expired_skips_text (cfg : Config) (B : Behavior) (today exp : Date)
    (food_name expiry_date description : String) (image_base64 : Option String)
    (hp : parseDate expiry_date = some exp)
    (hneg : daysBetween exp today < 0) :
    (predictFull cfg B today food_name expiry_date description image_base64).text_tried
        = [] ∧
    (imageTruthy image_base64 = true → cfg.use_api = true →
      (predictFull cfg B today food_name expiry_date description image_base64).vision_tried
        ≠ []) := by
  have hts := textStep_skipped cfg B (daysBetween exp today) hneg
  rcases hvp : visionStep cfg B image_base64 with ⟨vt, vres⟩
  cases vres with
  | some p =>
    obtain ⟨m, r⟩ := p
    rw [predictFull_vision cfg B today exp food_name expiry_date description
      image_base64 vt m r hp hvp]
    refine ⟨rfl, fun hi ha => ?_⟩
    have h := visionStep_attempted cfg B image_base64 hi ha
    rw [hvp] at h
    exact h
  | none =>
    rw [predictFull_local cfg B today exp food_name expiry_date description
      image_base64 vt [] hp hvp hts]
    refine ⟨rfl, fun hi ha => ?_⟩
    have h := visionStep_attempted cfg B image_base64 hi ha
    rw [hvp] at h
    exact h

/-- Witness for C5 at a concrete expired item with an image supplied. -/
theorem C5_expired_skips_text_w :
    (predictFull cfgApi noModels day0 "Milk" "2024-12-25" "" (some "imgdata")).text_tried
        = [] ∧
    (predictFull cfgApi noModels day0 "Milk" "2024-12-25" "" (some "imgdata")).vision_tried
        ≠ [] := by
  have h := C5_expired_skips_text cfgApi noModels day0 ⟨2024, 12, 25⟩ "Milk"
    "2024-12-25" "" (some "imgdata") (by decide) (by decide)
  exact ⟨h.1, h.2 (by decide) rfl⟩

/-- C7: with no external models available, a parseable non-past expiry date
and a spoilage keyword occurring in the lower-cased name-plus-description
text, the verdict is reject with confidence 0.95 and the matched keywords as
risk factors. -/
theorem C7_spoilage_reject (cfg : Config) (B : Behavior) (today exp : Date)
    (food_name expiry_date description : String) (image_base64 : Option String)
    (hapi : cfg.use_api = false)
    (hp : parseDate expiry_date = some exp)
    (hpos : 0 ≤ daysBetween exp today)
    (hiss : spoilage_words.filter
        (fun w => strContains (strLower (food_name ++ " " ++ description)) w) ≠ []) :
    (predict cfg B today food_name expiry_date description image_base64).status
        = some "reject" ∧
    (predict cfg B today food_name expiry_date description image_base64).confidence
        = some (mkRat 95 100) ∧
    (predict cfg B today food_name expiry_date description image_base64).risk_factors
        = some (spoilage_words.filter
            (fun w => strContains (strLower (food_name ++ " " ++ description)) w)) := by
  obtain ⟨hvs, hts⟩ := steps_skipped_no_api cfg B image_base64 (daysBetween exp today) hapi
  unfold predict
  rw [predictFull_local cfg B today exp food_name expiry_date description
    image_base64 [] [] hp hvs hts]
  have hneg : ¬ (daysBetween exp today < 0) := not_lt.mpr hpos
  have hne : (spoilage_words.filter
      (fun w => strContains (strLower (food_name ++ " " ++ description)) w)).isEmpty
        = false := by
    cases hfe : (spoilage_words.filter
        (fun w => strContains (strLower (food_name ++ " " ++ description)) w)).isEmpty
    · rfl
    · exact absurd (List.isEmpty_iff.mp hfe) hiss
  simp only [smart_local_ai, hneg, if_false, hne, Bool.not_false, if_true]
  exact ⟨by trivial, by trivial, by trivial⟩

/-- Witness for C7 at the concrete input of the spec's Scenario C. -/
theorem C7_spoilage_reject_w :
    (predict cfgNoApi noModels day0 "Bananas" "2025-01-03" "moldy spots" none).status
        = some "reject" ∧
    (predict cfgNoApi noModels day0 "Bananas" "2025-01-03" "moldy spots" none).confidence
        = some (mkRat 95 100) ∧
    (predict cfgNoApi noModels day0 "Bananas" "2025-01-03" "moldy spots" none).risk_factors
        = some (spoilage_words.filter
            (fun w => strContains (strLower ("Bananas" ++ " " ++ "moldy spots")) w)) ∧
    spoilage_words.filter
        (fun w => strContains (strLower ("Bananas" ++ " " ++ "moldy spots")) w)
      = ["mold"] := by
  have h := C7_spoilage_reject cfgNoApi noModels day0 ⟨2025, 1, 3⟩ "Bananas"
    "2025-01-03" "moldy spots" none rfl (by decide) (by decide) (by decide)
  exact ⟨h.1, h.2.1, h.2.2, by decide⟩

/-- C2: with a parseable expiry date, if every model attempt in every
external tier fails, the verdict equals the local tier's verdict for the
same food name, days left and description on status, confidence, risk
factors and recommendations; without an image even the reason coincides
(with an image only the reason annotation and the source and image fields
may differ). -/
theorem C2_all_fail_matches_local (cfg : Config) (B : Behavior) (today exp : Date)
    (food_name expiry_date description : String) (image_base64 : Option String)
    (hp : parseDate expiry_date = some exp)
    (hv : ∀ m ∈ vision_models, B.vision m = none)
    (ht : ∀ m ∈ text_models, B.text m = none) :
    (predict cfg B today food_name expiry_date description image_base64).status
      = (smart_local_ai food_name (daysBetween exp today) description false).status ∧
    (predict cfg B today food_name expiry_date description image_base64).confidence
      = (smart_local_ai food_name (daysBetween exp today) description false).confidence ∧
    (predict cfg B today food_name expiry_date description image_base64).risk_factors
      = (smart_local_ai food_name (daysBetween exp today) description false).risk_factors ∧
    (predict cfg B today food_name expiry_date description image_base64).recommendations
      = (smart_local_ai food_name (daysBetween exp today) description false).recommendations ∧
    (image_base64 = none →
      (predict cfg B today food_name expiry_date description image_base64).reason
        = (smart_local_ai food_name (daysBetween exp today) description false).reason) := by
  have hv2 := visionStep_fail cfg B image_base64 hv
  have ht2 := textStep_fail cfg B (daysBetween exp today) ht
  rcases hvp : visionStep cfg B image_base64 with ⟨vt, vres⟩
  have hvn : vres = none := by rw [hvp] at hv2; exact hv2
  subst hvn
  rcases htp : textStep cfg B (daysBetween exp today) with ⟨tt, tres⟩
  have htn : tres = none := by rw [htp] at ht2; exact ht2
  subst htn
  unfold predict
  rw [predictFull_local cfg B today exp food_name expiry_date description
    image_base64 vt tt hp hvp htp]
  obtain ⟨h1, h2, h3, h4, -⟩ := smart_local_image_fields food_name
    (daysBetween exp today) description image_base64.isSome
  refine ⟨h1, h2, h3, h4, fun hnone => ?_⟩
  subst hnone
  rfl

/-- Witness for C2 at the concrete input of the spec's Scenario B. -/
theorem C2_all_fail_matches_local_w :
    (predict cfgApi noModels day0 "Fresh Milk" "2025-01-06" "Unopened carton" none).status
      = (smart_local_ai "Fresh Milk" (daysBetween ⟨2025, 1, 6⟩ day0) "Unopened carton"
          false).status ∧
    (predict cfgApi noModels day0 "Fresh Milk" "2025-01-06" "Unopened carton" none).confidence
      = (smart_local_ai "Fresh Milk" (daysBetween ⟨2025, 1, 6⟩ day0) "Unopened carton"
          false).confidence ∧
    (predict cfgApi noModels day0 "Fresh Milk" "2025-01-06" "Unopened carton" none).reason
      = (smart_local_ai "Fresh Milk" (daysBetween ⟨2025, 1, 6⟩ day0) "Unopened carton"
          false).reason := by
  have h := C2_all_fail_matches_local cfgApi noModels day0 ⟨2025, 1, 6⟩ "Fresh Milk"
    "2025-01-06" "Unopened carton" none (by decide) (fun m _ => rfl) (fun m _ => rfl)
  exact ⟨h.1, h.2.1, h.2.2.2.2 rfl⟩

/-- C10: when no API key is configured, two otherwise-identical requests
whose image payloads are both present yield identical verdicts whatever the
payload contents (the image is never read), and an imaged request agrees
with the image-free request on status, confidence, risk factors and
recommendations. -/
theorem C10_image_noninterference (cfg : Config) (B : Behavior) (today : Date)
    (food_name expiry_date description : String)
    (hapi : cfg.use_api = false) :
    (∀ s1 s2 : String,
      predict cfg B today food_name expiry_date description (some s1)
        = predict cfg B today food_name expiry_date description (some s2)) ∧
    (∀ s : String,
      (predict cfg B today food_name expiry_date description (some s)).status
        = (predict cfg B today food_name expiry_date description none).status ∧
      (predict cfg B today food_name expiry_date description (some s)).confidence
        = (predict cfg B today food_name expiry_date description none).confidence ∧
      (predict cfg B today food_name expiry_date description (some s)).risk_factors
        = (predict cfg B today food_name expiry_date description none).risk_factors ∧
      (predict cfg B today food_name expiry_date description (some s)).recommendations
        = (predict cfg B today food_name expiry_date description none).recommendations) := by
  cases hp : parseDate expiry_date with
  | none =>
    constructor
    · intro s1 s2
      unfold predict
      rw [predictFull_bad_date cfg B today food_name expiry_date description (some s1) hp,
        predictFull_bad_date cfg B today food_name expiry_date description (some s2) hp]
    · intro s
      unfold predict
      rw [predictFull_bad_date cfg B today food_name expiry_date description (some s) hp,
        predictFull_bad_date cfg B today food_name expiry_date description none hp]
      exact ⟨rfl, rfl, rfl, rfl⟩
  | some exp =>
    constructor
    · intro s1 s2
      obtain ⟨hv1, ht1⟩ := steps_skipped_no_api cfg B (some s1) (daysBetween exp today) hapi
      obtain ⟨hv2, ht2⟩ := steps_skipped_no_api cfg B (some s2) (daysBetween exp today) hapi
      unfold predict
      rw [predictFull_local cfg B today exp food_name expiry_date description
          (some s1) [] [] hp hv1 ht1,
        predictFull_local cfg B today exp food_name expiry_date description
          (some s2) [] [] hp hv2 ht2]
      rfl
    · intro s
      obtain ⟨hv1, ht1⟩ := steps_skipped_no_api cfg B (some s) (daysBetween exp today) hapi
      obtain ⟨hv0, ht0⟩ := steps_skipped_no_api cfg B none (daysBetween exp today) hapi
      unfold predict
      rw [predictFull_local cfg B today exp food_name expiry_date description
          (some s) [] [] hp hv1 ht1,
        predictFull_local cfg B today exp food_name expiry_date description
          none [] [] hp hv0 ht0]
      obtain ⟨h1, h2, h3, h4, -⟩ := smart_local_image_fields food_name
        (daysBetween exp today) description (some s).isSome
      exact ⟨h1, h2, h3, h4⟩

/-- Witness for C10 at a concrete request with two different image payloads. -/
theorem C10_image_noninterference_w :
    predict cfgNoApi noModels day0 "Bread" "2025-01-08" "fresh" (some "abc")
      = predict cfgNoApi noModels day0 "Bread" "2025-01-08" "fresh" (some "zzz") ∧
    (predict cfgNoApi noModels day0 "Bread" "2025-01-08" "fresh" (some "abc")).status
      = (predict cfgNoApi noModels day0 "Bread" "2025-01-08" "fresh" none).status := by
  have h := C10_image_noninterference cfgNoApi noModels day0 "Bread" "2025-01-08" "fresh" rfl
  exact ⟨h.1 "abc" "zzz", (h.2 "abc").1⟩

/-- Counterexample to C3: a text model reply whose parsed JSON carries a
confidence of 2 escapes classify unclamped, so the returned confidence does
not lie in the unit interval. -/
theorem C3_confidence_cex :
    (predict cfgApi overConfident day0 "Apples" "2025-01-08" "" none).confidence
      = some 2 ∧ ¬ ((2 : ℚ) ≤ 1) := ⟨by decide, by decide⟩

/-- C3 as amended: for every input and behaviour, the status of the returned
verdict is canonical whenever the status field is present; and provided every
successfully parsed reply carries a confidence in the unit interval whenever
it carries one at all, the returned confidence is present and lies in the
unit interval (an out-of-range model-supplied confidence is passed through
unvalidated, and a parsed reply lacking a status field leaves the status
field absent). -/
theorem C3_amended (cfg : Config) (B : Behavior) (today : Date)
    (food_name expiry_date description : String) (image_base64 : Option String)
    (hconf : ∀ m j, (B.vision m = some (AiResponse.json j)
        ∨ B.text m = some (AiResponse.json j)) →
      ∀ c, j.confidence = some c → 0 ≤ c ∧ c ≤ 1) :
    statusCanonicalIfPresent
      (predict cfg B today food_name expiry_date description image_base64) ∧
    confidenceInUnit
      (predict cfg B today food_name expiry_date description image_base64) := by
  cases hp : parseDate expiry_date with
  | none =>
    unfold predict
    rw [predictFull_bad_date cfg B today food_name expiry_date description image_base64 hp]
    obtain ⟨⟨s, hs, hcan⟩, hc⟩ :=
      simple_fallback_shape today food_name expiry_date "ValueError"
    refine ⟨fun s' hs' => ?_, hc⟩
    rw [hs] at hs'
    injection hs' with h
    rw [← h]
    exact hcan
  | some exp =>
    rcases hvp : visionStep cfg B image_base64 with ⟨vt, vres⟩
    cases vres with
    | some p =>
      obtain ⟨m, r⟩ := p
      obtain ⟨reply, hb, hr⟩ := visionStep_some cfg B image_base64 vt m r hvp
      unfold predict
      rw [predictFull_vision cfg B today exp food_name expiry_date description
        image_base64 vt m r hp hvp]
      subst hr
      obtain ⟨hstat, -⟩ := parse_shape reply m true
      refine ⟨fun s hs => hstat s hs, ?_⟩
      cases reply with
      | malformed => exact ⟨mkRat 7 10, rfl, by decide, by decide⟩
      | json j =>
        cases hjc : j.confidence with
        | none =>
          refine ⟨mkRat 8 10, ?_, by decide, by decide⟩
          show some (j.confidence.getD (mkRat 8 10)) = some (mkRat 8 10)
          rw [hjc]
          rfl
        | some c =>
          obtain ⟨h0, h1⟩ := hconf m j (Or.inl hb) c hjc
          refine ⟨c, ?_, h0, h1⟩
          show some (j.confidence.getD (mkRat 8 10)) = some c
          rw [hjc]
          rfl
    | none =>
      rcases htp : textStep cfg B (daysBetween exp today) with ⟨tt, tres⟩
      cases tres with
      | some p =>
        obtain ⟨m, r⟩ := p
        obtain ⟨reply, hb, hr⟩ := textStep_some cfg B (daysBetween exp today) tt m r htp
        unfold predict
        rw [predictFull_text cfg B today exp food_name expiry_date description
          image_base64 vt tt m r hp hvp htp]
        subst hr
        obtain ⟨hstat, -⟩ := parse_shape reply m false
        refine ⟨fun s hs => hstat s hs, ?_⟩
        cases reply with
        | malformed => exact ⟨mkRat 7 10, rfl, by decide, by decide⟩
        | json j =>
          cases hjc : j.confidence with
          | none =>
            refine ⟨mkRat 8 10, ?_, by decide, by decide⟩
            show some (j.confidence.getD (mkRat 8 10)) = some (mkRat 8 10)
            rw [hjc]
            rfl
          | some c =>
            obtain ⟨h0, h1⟩ := hconf m j (Or.inr hb) c hjc
            refine ⟨c, ?_, h0, h1⟩
            show some (j.confidence.getD (mkRat 8 10)) = some c
            rw [hjc]
            rfl
      | none =>
        unfold predict
        rw [predictFull_local cfg B today exp food_name expiry_date description
          image_base64 vt tt hp hvp htp]
        obtain ⟨⟨s, hs, hcan⟩, hc, -⟩ := smart_local_shape food_name
          (daysBetween exp today) description image_base64.isSome
        refine ⟨fun s' hs' => ?_, hc⟩
        have hs2 : (smart_local_ai food_name (daysBetween exp today) description
            image_base64.isSome).status = some s' := hs'
        rw [hs] at hs2
        injection hs2 with h
        rw [← h]
        exact hcan

/-- Witness for C3 as amended, with every model attempt failing. -/
theorem C3_amended_w :
    statusCanonicalIfPresent (predict cfgApi noModels day0 "Apples" "2025-01-08" "" none) ∧
    confidenceInUnit (predict cfgApi noModels day0 "Apples" "2025-01-08" "" none) :=
  C3_amended cfgApi noModels day0 "Apples" "2025-01-08" "" none
    (by intro m j h; simp [noModels] at h)

/-- Counterexample to C4: when the parsed JSON block carries no status field
at all, the normaliser does not backfill it with safe_to_donate; the status
key is simply absent from the result. -/
theorem C4_absent_status_cex :
    (parse_ai_response (AiResponse.json ⟨none, none, none, none, none⟩)
        "meta-llama/llama-3.2-3b-instruct:free" false).status = none ∧
    (none : Option String) ≠ some "safe_to_donate" := ⟨rfl, by decide⟩

/-- C4 as amended: on a successfully parsed JSON block the normaliser maps a
present status case-insensitively (via upper-casing) to the canonical
lowercase statuses, defaulting a present-but-unrecognised status to
safe_to_donate, while an absent status stays absent; missing confidence,
reason, risk_factors and recommendations are backfilled with 0.8, a reason
naming the model's provider, the empty list and the empty list. -/
theorem C4_normalizer_amended (j : JsonObj) (mdl : String) (iv : Bool) :
    (j.status = none →
      (parse_ai_response (AiResponse.json j) mdl iv).status = none) ∧
    (∀ s, j.status = some s →
      (parse_ai_response (AiResponse.json j) mdl iv).status
        = some (status_map (strUpper s))) ∧
    (∀ s, strUpper s = "SAFE_TO_DONATE" → status_map (strUpper s) = "safe_to_donate") ∧
    (∀ s, strUpper s = "CONSUME_SOON" → status_map (strUpper s) = "consume_soon") ∧
    (∀ s, strUpper s = "REJECT" → status_map (strUpper s) = "reject") ∧
    (∀ s, strUpper s ≠ "SAFE_TO_DONATE" → strUpper s ≠ "CONSUME_SOON" →
      strUpper s ≠ "REJECT" → status_map (strUpper s) = "safe_to_donate") ∧
    (j.confidence = none →
      (parse_ai_response (AiResponse.json j) mdl iv).confidence = some (mkRat 8 10)) ∧
    (j.reason = none →
      (parse_ai_response (AiResponse.json j) mdl iv).reason
        = some ("Analyzed by " ++ modelOwner mdl)) ∧
    (j.risk_factors = none →
      (parse_ai_response (AiResponse.json j) mdl iv).risk_factors = some []) ∧
    (j.recommendations = none →
      (parse_ai_response (AiResponse.json j) mdl iv).recommendations = some []) := by
  refine ⟨?_, ?_, ?_, ?_, ?_, ?_, ?_, ?_, ?_, ?_⟩
  · intro h
    show j.status.map (fun s => status_map (strUpper s)) = none
    rw [h]
    rfl
  · intro s h
    show j.status.map (fun s => status_map (strUpper s)) = some (status_map (strUpper s))
    rw [h]
    rfl
  · intro s h
    rw [h]
    decide
  · intro s h
    rw [h]
    decide
  · intro s h
    rw [h]
    decide
  · intro s h1 h2 h3
    unfold status_map
    split_ifs with hc1 hc2 hc3
    · exact absurd (eq_of_beq hc1) h1
    · exact absurd (eq_of_beq hc2) h2
    · exact absurd (eq_of_beq hc3) h3
    · rfl
  · intro h
    show some (j.confidence.getD (mkRat 8 10)) = some (mkRat 8 10)
    rw [h]
    rfl
  · intro h
    show some (j.reason.getD ("Analyzed by " ++ modelOwner mdl))
      = some ("Analyzed by " ++ modelOwner mdl)
    rw [h]
    rfl
  · intro h
    show some (j.risk_factors.getD []) = some []
    rw [h]
    rfl
  · intro h
    show some (j.recommendations.getD []) = some []
    rw [h]
    rfl

/-- Witness for C4 as amended at a reply carrying only a lowercase status. -/
theorem C4_normalizer_amended_w :
    (parse_ai_response (AiResponse.json jStatusOnly)
        "google/gemini-2.0-flash-exp:free" true).confidence = some (mkRat 8 10) ∧
    (parse_ai_response (AiResponse.json jStatusOnly)
        "google/gemini-2.0-flash-exp:free" true).status
      = some (status_map (strUpper "reject")) ∧
    status_map (strUpper "reject") = "reject" := by
  have h := C4_normalizer_amended jStatusOnly "google/gemini-2.0-flash-exp:free" true
  exact ⟨h.2.2.2.2.2.2.1 rfl, h.2.1 "reject" rfl, h.2.2.2.2.1 "reject" (by decide)⟩

/-- Counterexample to C6: the verdict returned on an unparseable expiry date
lacks the source-tier field (ai_type) and the image flag, and the verdict
built from a parsed reply without a status field lacks the status field, so
not every path returns a fully populated verdict. -/
theorem C6_full_population_cex :
    ¬ fullyPopulated (predict cfgApi noModels day0 "Rice" "not-a-date" "" none) ∧
    ¬ fullyPopulated (predict cfgApi emptyJsonModels day0 "Rice" "2025-01-08" "" none) :=
  ⟨by decide, by decide⟩

/-- C6 as amended: whenever the expiry date parses and every successfully
parsed reply carries a status field, every path of classify returns a fully
populated verdict; the two exceptions are exactly the simple-fallback path
(whose verdict lacks ai_type and image_analyzed) and a parsed reply without
a status field (whose verdict lacks status). -/
theorem C6_fully_populated_amended (cfg : Config) (B : Behavior) (today : Date)
    (food_name expiry_date description : String) (image_base64 : Option String)
    (hp : (parseDate expiry_date).isSome = true)
    (hstat : ∀ m j, (B.vision m = some (AiResponse.json j)
        ∨ B.text m = some (AiResponse.json j)) → j.status.isSome = true) :
    fullyPopulated (predict cfg B today food_name expiry_date description image_base64) := by
  obtain ⟨exp, hpe⟩ := Option.isSome_iff_exists.mp hp
  rcases hvp : visionStep cfg B image_base64 with ⟨vt, vres⟩
  cases vres with
  | some p =>
    obtain ⟨m, r⟩ := p
    obtain ⟨reply, hb, hr⟩ := visionStep_some cfg B image_base64 vt m r hvp
    unfold predict
    rw [predictFull_vision cfg B today exp food_name expiry_date description
      image_base64 vt m r hpe hvp]
    subst hr
    obtain ⟨-, h2, h3, h4, h5⟩ := parse_shape reply m true
    cases reply with
    | malformed => exact ⟨rfl, rfl, rfl, rfl, rfl, rfl, rfl, rfl⟩
    | json jj =>
      refine ⟨?_, rfl, h2, h3, h4, h5, rfl, rfl⟩
      show (jj.status.map (fun s => status_map (strUpper s))).isSome = true
      obtain ⟨s, hs⟩ := Option.isSome_iff_exists.mp (hstat m jj (Or.inl hb))
      rw [hs]
      rfl
  | none =>
    rcases htp : textStep cfg B (daysBetween exp today) with ⟨tt, tres⟩
    cases tres with
    | some p =>
      obtain ⟨m, r⟩ := p
      obtain ⟨reply, hb, hr⟩ := textStep_some cfg B (daysBetween exp today) tt m r htp
      unfold predict
      rw [predictFull_text cfg B today exp food_name expiry_date description
        image_base64 vt tt m r hpe hvp htp]
      subst hr
      obtain ⟨-, h2, h3, h4, h5⟩ := parse_shape reply m false
      cases reply with
      | malformed => exact ⟨rfl, rfl, rfl, rfl, rfl, rfl, rfl, rfl⟩
      | json jj =>
        refine ⟨?_, rfl, h2, h3, h4, h5, rfl, rfl⟩
        show (jj.status.map (fun s => status_map (strUpper s))).isSome = true
        obtain ⟨s, hs⟩ := Option.isSome_iff_exists.mp (hstat m jj (Or.inr hb))
        rw [hs]
        rfl
    | none =>
      unfold predict
      rw [predictFull_local cfg B today exp food_name expiry_date description
        image_base64 vt tt hpe hvp htp]
      obtain ⟨⟨s, hs, -⟩, ⟨c, hc, -⟩, h3, h4, h5, h6⟩ := smart_local_shape food_name
        (daysBetween exp today) description image_base64.isSome
      refine ⟨?_, ?_, h3, h4, h5, ?_, rfl, rfl⟩
      · show (smart_local_ai food_name (daysBetween exp today) description
          image_base64.isSome).status.isSome = true
        rw [hs]
        rfl
      · show (smart_local_ai food_name (daysBetween exp today) description
          image_base64.isSome).confidence.isSome = true
        rw [hc]
        rfl
      · show (smart_local_ai food_name (daysBetween exp today) description
          image_base64.isSome).model.isSome = true
        rw [h6]
        rfl

/-- Witness for C6 as amended, with every model attempt failing. -/
theorem C6_fully_populated_amended_w :
    fullyPopulated (predict cfgApi noModels day0 "Rice" "2025-01-08" "" none) :=
  C6_fully_populated_amended cfgApi noModels day0 "Rice" "2025-01-08" "" none
    (by decide) (by intro m j h; simp [noModels] at h)

/-- Counterexample to C9: a 201 response (an HTTP success that is not 200)
with a well-formed reply makes the vision invoker fail instead of returning
the reply text, and the text invoker's error for a non-2xx response carries
only the status code, not a truncated error body. -/
theorem C9_invoker_cex :
    vision_http_result ⟨201, "", some "looks fine"⟩ = Except.error "API Error 201: " ∧
    text_http_result ⟨500, "upstream error details", some "x"⟩
      = Except.error "API Error 500" := ⟨rfl, rfl⟩

/-- C9 as amended: an invoker returns the raw reply text exactly when the
HTTP status equals 200 and the body carries a well-formed completion; on any
other status the vision invoker fails with an error carrying the status and
the body truncated to 100 characters, while the text invoker's error carries
the status only; vision invocations use a 20-second timeout and text
invocations a 15-second timeout. -/
theorem C9_invoker_amended (resp : HttpResponse) :
    (∀ c, resp.content = some c → resp.status_code = 200 →
      vision_http_result resp = Except.ok c ∧ text_http_result resp = Except.ok c) ∧
    (∀ c, vision_http_result resp = Except.ok c →
      resp.status_code = 200 ∧ resp.content = some c) ∧
    (∀ c, text_http_result resp = Except.ok c →
      resp.status_code = 200 ∧ resp.content = some c) ∧
    (resp.status_code ≠ 200 →
      vision_http_result resp = Except.error ("API Error " ++ Nat.repr resp.status_code
        ++ ": " ++ String.mk (resp.body.data.take 100)) ∧
      text_http_result resp = Except.error ("API Error " ++ Nat.repr resp.status_code)) ∧
    vision_timeout = 20 ∧ text_timeout = 15 := by
  refine ⟨?_, ?_, ?_, ?_, rfl, rfl⟩
  · intro c hc h200
    unfold vision_http_result text_http_result
    have hb : (resp.status_code == 200) = true := by rw [h200]; rfl
    rw [if_pos hb, if_pos hb, hc]
    exact ⟨rfl, rfl⟩
  · intro c hok
    unfold vision_http_result at hok
    by_cases h200 : (resp.status_code == 200) = true
    · rw [if_pos h200] at hok
      cases hcontent : resp.content with
      | none => rw [hcontent] at hok; exact absurd hok (by simp)
      | some c0 =>
        rw [hcontent] at hok
        injection hok with h
        subst h
        exact ⟨eq_of_beq h200, rfl⟩
    · rw [if_neg h200] at hok
      exact absurd hok (by simp)
  · intro c hok
    unfold text_http_result at hok
    by_cases h200 : (resp.status_code == 200) = true
    · rw [if_pos h200] at hok
      cases hcontent : resp.content with
      | none => rw [hcontent] at hok; exact absurd hok (by simp)
      | some c0 =>
        rw [hcontent] at hok
        injection hok with h
        subst h
        exact ⟨eq_of_beq h200, rfl⟩
    · rw [if_neg h200] at hok
      exact absurd hok (by simp)
  · intro hne
    have hb : (resp.status_code == 200) = false := beq_eq_false_iff_ne.mpr hne
    unfold vision_http_result text_http_result
    rw [if_neg (by rw [hb]; exact Bool.false_ne_true), if_neg (by rw [hb]; exact Bool.false_ne_true)]
    exact ⟨rfl, rfl⟩

/-- Witness for C9 as amended at a 200 response and a 404 response. -/
theorem C9_invoker_amended_w :
    vision_http_result ⟨200, "okbody", some "hello"⟩ = Except.ok "hello" ∧
    text_http_result ⟨200, "okbody", some "hello"⟩ = Except.ok "hello" ∧
    vision_http_result ⟨404, "missing page", some "x"⟩
      = Except.error ("API Error " ++ Nat.repr 404 ++ ": "
          ++ String.mk ("missing page".data.take 100)) ∧
    text_http_result ⟨404, "missing page", some "x"⟩
      = Except.error ("API Error " ++ Nat.repr 404) := by
  have h1 := (C9_invoker_amended ⟨200, "okbody", some "hello"⟩).1 "hello" rfl rfl
  have h2 := (C9_invoker_amended ⟨404, "missing page", some "x"⟩).2.2.2.1 (by decide)
  exact ⟨h1.1, h1.2, h2.1, h2.2⟩
